import Mathlib

/-!
Shallow embedding of `src/cloudflare/index.ts`, a Model Context Protocol
adapter exposing four Cloudflare KV operations (`kv_get`, `kv_put`,
`kv_delete`, `kv_list`).

The TypeScript source performs I/O through `fetch`; the embedding splits
each adapter function into
  * a request-construction part (pure: URL and fetch options built from the
    arguments), and
  * a response-mapping part (pure: given the fetch outcome, build the
    result envelope),
with exceptions modelled by `Except JsThrown`.  JavaScript's
possibly-undefined values are modelled by `Option`.
-/

namespace CloudflareKV

/-- A thrown JavaScript value as the dispatcher's `catch` sees it:
either an `Error` instance (carrying `.message`) or any other value
(carrying `String(value)`). -/
inductive JsThrown where
  | error (message : String)
  | value (str : String)
  deriving DecidableEq, Repr

/-- `error instanceof Error ? error.message : String(error)` from the
dispatcher's catch block. -/
def thrownText : JsThrown → String
  | .error m => m
  | .value s => s

/-- One element of a result envelope's `content` array:
`{ type: "text", text: ... }`. -/
structure ContentItem where
  type : String
  text : String
  deriving DecidableEq, Repr

/-- `{ content: [...], isError: ... }`. -/
structure ToolResult where
  content : List ContentItem
  isError : Bool
  deriving DecidableEq, Repr

/-- The uniform result envelope `{ toolResult: { content, isError } }`
returned by every handler and by the dispatcher. -/
structure Envelope where
  toolResult : ToolResult
  deriving DecidableEq, Repr

/-- Build the envelope `{ toolResult: { content: [{type:"text", text}], isError } }`
as every return site in the source does. -/
def mkEnvelope (text : String) (isError : Bool) : Envelope :=
  { toolResult := { content := [{ type := "text", text := text }], isError := isError } }

/-- One entry of the provider's list response `result` array:
`{ name, expiration?, metadata? }` (interface `CloudflareListResponse`). -/
structure KVKeyRecord where
  name : String
  expiration : Option Nat
  metadata : Option String
  deriving DecidableEq, Repr

/-- The parsed JSON body of a list response (interface
`CloudflareListResponse`).  `errors` and `messages` are `any[]` in the
source; they are modelled by their string forms, which is all
`errors.join(', ')` consumes. -/
structure CloudflareListResponse where
  result : List KVKeyRecord
  success : Bool
  errors : List String
  messages : List String
  deriving DecidableEq, Repr

/-- An HTTP response as the handlers consume it: `ok` (2xx), `statusText`,
the body as text (`response.text()`), and the body as parsed JSON
(`response.json()`, which may reject on malformed JSON). -/
structure Response where
  ok : Bool
  statusText : String
  textBody : String
  jsonBody : Except JsThrown CloudflareListResponse
  deriving Repr

/-- The outcome of `await fetch(...)`: a response, or a rejection
(network failure). -/
abbrev FetchOutcome := Except JsThrown Response

/-- The three environment-derived settings (`getConfig`); each may be
absent, since the presence check in the source is commented out. -/
structure Config where
  accountId : Option String
  apiToken : Option String
  namespaceId : Option String
  deriving DecidableEq, Repr

/-- JavaScript template-literal interpolation of a possibly-undefined
string: `undefined` renders as the text "undefined". -/
def jsInterp : Option String → String
  | none => "undefined"
  | some s => s

/-- Truthiness of a possibly-undefined JavaScript string:
`undefined` and `""` are falsy. -/
def jsTruthyStr : Option String → Bool
  | none => false
  | some s => s ≠ ""

/-- Truthiness of a possibly-undefined JavaScript number (restricted to
naturals, which is all the source passes): `undefined` and `0` are falsy. -/
def jsTruthyNat : Option Nat → Bool
  | none => false
  | some n => n ≠ 0

/-- The URL prefix shared by all four handlers:
`https://api.cloudflare.com/client/v4/accounts/{accountId}/storage/kv/namespaces/{namespaceId}`. -/
def baseUrl (c : Config) : String :=
  "https://api.cloudflare.com/client/v4/accounts/" ++ jsInterp c.accountId ++
    "/storage/kv/namespaces/" ++ jsInterp c.namespaceId

/-! ## URLSearchParams serialization (used by `handleList`) -/

/-- Lowercase is not used: `URLSearchParams` percent-encodes with uppercase
hex digits. -/
def hexDigitUpper (n : Nat) : Char :=
  if n < 10 then Char.ofNat (48 + n) else Char.ofNat (55 + n)

/-- `%XX` for one byte, uppercase hex. -/
def percentByte (b : Nat) : String :=
  "%" ++ String.singleton (hexDigitUpper (b / 16 % 16)) ++
    String.singleton (hexDigitUpper (b % 16))

/-- UTF-8 encoding of a code point as a list of byte values. -/
def utf8Bytes (n : Nat) : List Nat :=
  if n < 0x80 then [n]
  else if n < 0x800 then [0xC0 + n / 64, 0x80 + n % 64]
  else if n < 0x10000 then [0xE0 + n / 4096, 0x80 + n / 64 % 64, 0x80 + n % 64]
  else [0xF0 + n / 262144, 0x80 + n / 4096 % 64, 0x80 + n / 64 % 64, 0x80 + n % 64]

/-- Bytes that `application/x-www-form-urlencoded` serialization leaves
unescaped: ASCII alphanumerics and `*`, `-`, `.`, `_`. -/
def isFormUnreserved (b : Nat) : Bool :=
  (65 ≤ b && b ≤ 90) || (97 ≤ b && b ≤ 122) || (48 ≤ b && b ≤ 57) ||
    b = 42 || b = 45 || b = 46 || b = 95

/-- Serialize one byte: space becomes `+`, unreserved bytes stand for
themselves, everything else is percent-encoded. -/
def formEncodeByte (b : Nat) : String :=
  if b = 32 then "+"
  else if isFormUnreserved b then String.singleton (Char.ofNat b)
  else percentByte b

/-- `application/x-www-form-urlencoded` encoding of a string, as
`URLSearchParams` applies to each name and value. -/
def formEncode (s : String) : String :=
  String.join ((s.data.flatMap (fun c => utf8Bytes c.toNat)).map formEncodeByte)

/-- `URLSearchParams.prototype.toString`: `k=v` pairs joined by `&`,
names and values form-urlencoded.  An empty parameter list serializes
to the empty string. -/
def urlSearchParamsToString (params : List (String × String)) : String :=
  String.intercalate "&" (params.map (fun kv => formEncode kv.1 ++ "=" ++ formEncode kv.2))

/-! ## JSON.stringify (used by `handleList` success path) -/

/-- Lowercase hex digit (as `JSON.stringify` uses in `\uXXXX` escapes). -/
def hexDigitLower (n : Nat) : Char :=
  if n < 10 then Char.ofNat (48 + n) else Char.ofNat (87 + n)

/-- Four lowercase hex digits. -/
def hex4 (n : Nat) : String :=
  String.singleton (hexDigitLower (n / 4096 % 16)) ++
    String.singleton (hexDigitLower (n / 256 % 16)) ++
    String.singleton (hexDigitLower (n / 16 % 16)) ++
    String.singleton (hexDigitLower (n % 16))

/-- `JSON.stringify` escaping of one character inside a string literal. -/
def jsonEscapeChar (c : Char) : String :=
  if c = Char.ofNat 34 then "\\\""
  else if c = Char.ofNat 92 then "\\\\"
  else if c = Char.ofNat 8 then "\\b"
  else if c = Char.ofNat 9 then "\\t"
  else if c = Char.ofNat 10 then "\\n"
  else if c = Char.ofNat 12 then "\\f"
  else if c = Char.ofNat 13 then "\\r"
  else if c.toNat < 32 then "\\u" ++ hex4 c.toNat
  else String.singleton c

/-- `JSON.stringify` of a string value. -/
def jsonQuote (s : String) : String :=
  "\"" ++ String.join (s.data.map jsonEscapeChar) ++ "\""

/-- `JSON.stringify(keys, null, 2)` for a flat array of strings: `[]` when
empty, otherwise one element per line indented by two spaces. -/
def jsonStringifyPretty2 (xs : List String) : String :=
  match xs with
  | [] => "[]"
  | _ => "[\n  " ++ String.intercalate ",\n  " (xs.map jsonQuote) ++ "\n]"

/-! ## Outbound requests

`fetch(url, options)` in the source.  `node-fetch` consumes the URL and the
standard init fields (`method`, `headers`, `body`); `handlePut` additionally
spreads a `query` field into the options object, which is not part of the
init interface and is not consumed, so it is kept separately in the model. -/

/-- The options object passed to `fetch`.  `query` is the extra field
spread in by `handlePut` when `expirationTtl` is truthy; it is not a field
of the fetch init interface. -/
structure FetchOptions where
  method : Option String
  headers : List (String × String)
  body : Option String
  query : Option (List (String × Nat))
  deriving DecidableEq, Repr

/-- The request as it actually goes out on the wire. -/
structure OutboundRequest where
  url : String
  method : String
  headers : List (String × String)
  body : Option String
  deriving DecidableEq, Repr

/-- What `node-fetch` sends for `fetch(url, opts)`: the URL unchanged and
the init fields it knows (`method`, defaulting to GET, `headers`, `body`).
The nonstandard `query` field is ignored by the transport. -/
def sendFetch (url : String) (opts : FetchOptions) : OutboundRequest :=
  { url := url
    method := opts.method.getD "GET"
    headers := opts.headers
    body := opts.body }

/-- The `Authorization: Bearer ...` header used by every handler. -/
def authHeader (c : Config) : String × String :=
  ("Authorization", "Bearer " ++ jsInterp c.apiToken)

/-! ## API handlers

Each handler is split into its request construction (`*_url`,
`*_fetchOptions`) and its response mapping (`handle*`), the latter taking
the outcome of `await fetch(...)` as an argument. -/

/-- URL built by `handleGet`, `handlePut` and `handleDelete`:
`{base}/values/{key}`. -/
def values_url (c : Config) (key : String) : String :=
  baseUrl c ++ "/values/" ++ key

/-- Options of `handleGet`'s fetch call: only the authorization header. -/
def handleGet_fetchOptions (c : Config) : FetchOptions :=
  { method := none, headers := [authHeader c], body := none, query := none }

/-- Response mapping of `handleGet`: non-2xx becomes an error envelope
embedding the status text; otherwise the raw body text is the success
payload. -/
def handleGet (key : String) (fetchRes : FetchOutcome) : Except JsThrown Envelope :=
  let _ := key
  match fetchRes with
  | .error e => .error e
  | .ok response =>
    if !response.ok then
      .ok (mkEnvelope ("Failed to get value: " ++ response.statusText) true)
    else
      let value := response.textBody
      .ok (mkEnvelope value false)

/-- Options of `handlePut`'s fetch call: PUT with the authorization and
`Content-Type: text/plain` headers, the value as body, and — when
`expirationTtl` is truthy — a spread `query: { expiration_ttl }` field. -/
def handlePut_fetchOptions (c : Config) (value : String) (expirationTtl : Option Nat) :
    FetchOptions :=
  { method := some "PUT"
    headers := [authHeader c, ("Content-Type", "text/plain")]
    body := some value
    query := if jsTruthyNat expirationTtl
      then some [("expiration_ttl", expirationTtl.getD 0)]
      else none }

/-- Response mapping of `handlePut`. -/
def handlePut (key : String) (value : String) (expirationTtl : Option Nat)
    (fetchRes : FetchOutcome) : Except JsThrown Envelope :=
  let _ := value
  let _ := expirationTtl
  match fetchRes with
  | .error e => .error e
  | .ok response =>
    if !response.ok then
      .ok (mkEnvelope ("Failed to put value: " ++ response.statusText) true)
    else
      .ok (mkEnvelope ("Successfully stored value for key: " ++ key) false)

/-- Options of `handleDelete`'s fetch call. -/
def handleDelete_fetchOptions (c : Config) : FetchOptions :=
  { method := some "DELETE", headers := [authHeader c], body := none, query := none }

/-- Response mapping of `handleDelete`. -/
def handleDelete (key : String) (fetchRes : FetchOutcome) : Except JsThrown Envelope :=
  match fetchRes with
  | .error e => .error e
  | .ok response =>
    if !response.ok then
      .ok (mkEnvelope ("Failed to delete key: " ++ response.statusText) true)
    else
      .ok (mkEnvelope ("Successfully deleted key: " ++ key) false)

/-- The `URLSearchParams` built by `handleList`: `prefix` is appended when
truthy, then `limit` (via `toString`) when truthy. -/
def handleList_params (pfx : Option String) (limit : Option Nat) :
    List (String × String) :=
  let params : List (String × String) := []
  let params := if jsTruthyStr pfx then params ++ [("prefix", pfx.getD "")] else params
  let params := if jsTruthyNat limit then params ++ [("limit", toString (limit.getD 0))] else params
  params

/-- URL built by `handleList`: `{base}/keys?{params}`. -/
def handleList_url (c : Config) (pfx : Option String) (limit : Option Nat) : String :=
  baseUrl c ++ "/keys?" ++ urlSearchParamsToString (handleList_params pfx limit)

/-- Options of `handleList`'s fetch call. -/
def handleList_fetchOptions (c : Config) : FetchOptions :=
  { method := none, headers := [authHeader c], body := none, query := none }

/-- Response mapping of `handleList`: non-2xx becomes an error envelope
embedding the status text; a parsed body with `success: false` becomes an
error envelope embedding `errors.join(', ')`; otherwise the success text is
`JSON.stringify(result.map(item => item.name), null, 2)`. -/
def handleList (pfx : Option String) (limit : Option Nat)
    (fetchRes : FetchOutcome) : Except JsThrown Envelope :=
  let _ := pfx
  let _ := limit
  match fetchRes with
  | .error e => .error e
  | .ok response =>
    if !response.ok then
      .ok (mkEnvelope ("Failed to list keys: " ++ response.statusText) true)
    else
      match response.jsonBody with
      | .error e => .error e
      | .ok data =>
        if !data.success then
          .ok (mkEnvelope ("Failed to list keys: " ++ String.intercalate ", " data.errors) true)
        else
          let keys := data.result.map (fun item => item.name)
          .ok (mkEnvelope (jsonStringifyPretty2 keys) false)

/-! ## Tool registry -/

/-- One property of a tool's JSON-Schema `properties` object. -/
structure PropSchema where
  type : String
  description : String
  deriving DecidableEq, Repr

/-- A tool's `inputSchema`: `{ type, properties, required? }`; `required`
is absent when the source omits it (`kv_list`). -/
structure InputSchema where
  type : String
  properties : List (String × PropSchema)
  required : Option (List String)
  deriving DecidableEq, Repr

/-- A tool descriptor `{ name, description, inputSchema }`. -/
structure Tool where
  name : String
  description : String
  inputSchema : InputSchema
  deriving DecidableEq, Repr

/-- `KV_GET_TOOL`. -/
def KV_GET_TOOL : Tool :=
  { name := "kv_get"
    description := "Get a value from Cloudflare KV store"
    inputSchema :=
      { type := "object"
        properties := [("key", { type := "string", description := "The key to retrieve" })]
        required := some ["key"] } }

/-- `KV_PUT_TOOL`. -/
def KV_PUT_TOOL : Tool :=
  { name := "kv_put"
    description := "Put a value into Cloudflare KV store"
    inputSchema :=
      { type := "object"
        properties :=
          [("key", { type := "string", description := "The key to store" }),
           ("value", { type := "string", description := "The value to store" }),
           ("expirationTtl",
             { type := "number", description := "Optional expiration time in seconds" })]
        required := some ["key", "value"] } }

/-- `KV_DELETE_TOOL`. -/
def KV_DELETE_TOOL : Tool :=
  { name := "kv_delete"
    description := "Delete a key from Cloudflare KV store"
    inputSchema :=
      { type := "object"
        properties := [("key", { type := "string", description := "The key to delete" })]
        required := some ["key"] } }

/-- `KV_LIST_TOOL`. -/
def KV_LIST_TOOL : Tool :=
  { name := "kv_list"
    description := "List keys in Cloudflare KV store"
    inputSchema :=
      { type := "object"
        properties :=
          [("prefix", { type := "string", description := "Optional prefix to filter keys" }),
           ("limit", { type := "number", description := "Maximum number of keys to return" })]
        required := none } }

/-- `KV_TOOLS`, the ordered registry. -/
def KV_TOOLS : List Tool :=
  [KV_GET_TOOL, KV_PUT_TOOL, KV_DELETE_TOOL, KV_LIST_TOOL]

/-- The `ListToolsRequestSchema` handler's response: `{ tools: KV_TOOLS }`. -/
structure ListToolsResult where
  tools : List Tool
  deriving DecidableEq, Repr

/-- The discovery handler returns the static registry. -/
def listToolsHandler : ListToolsResult :=
  { tools := KV_TOOLS }

/-! ## Request dispatcher -/

/-- The fields the dispatcher's type assertions read out of
`request.params.arguments`.  JavaScript objects carry any fields; absent
ones read as `undefined`, hence every field is optional. -/
structure Args where
  key : Option String
  value : Option String
  expirationTtl : Option Nat
  pfx : Option String
  limit : Option Nat
  deriving DecidableEq, Repr

/-- `request.params`: a tool name and an arguments object that may itself
be `undefined`. -/
structure ToolCallParams where
  name : String
  arguments : Option Args
  deriving DecidableEq, Repr

/-- Destructuring `request.params.arguments`: destructuring `undefined`
throws a `TypeError`. -/
def destructureArgs : Option Args → Except JsThrown Args
  | none => .error (.error "Cannot destructure property of undefined")
  | some a => .ok a

/-- The body of the dispatcher's `try` block: match the tool name, extract
the arguments, call the handler.  `fetchRes` stands for the outcome of the
single HTTP call the matched handler performs. -/
def dispatchBody (req : ToolCallParams) (fetchRes : FetchOutcome) :
    Except JsThrown Envelope :=
  match req.name with
  | "kv_get" => do
      let args ← destructureArgs req.arguments
      handleGet (jsInterp args.key) fetchRes
  | "kv_put" => do
      let args ← destructureArgs req.arguments
      handlePut (jsInterp args.key) (jsInterp args.value) args.expirationTtl fetchRes
  | "kv_delete" => do
      let args ← destructureArgs req.arguments
      handleDelete (jsInterp args.key) fetchRes
  | "kv_list" => do
      let args ← destructureArgs req.arguments
      handleList args.pfx args.limit fetchRes
  | _ => .ok (mkEnvelope ("Unknown tool: " ++ req.name) true)

/-- The `CallToolRequestSchema` handler: the `try` body with its `catch`
converting any thrown value into `Error: {message}` inside an error
envelope.  Total: every call produces an envelope. -/
def dispatch (req : ToolCallParams) (fetchRes : FetchOutcome) : Envelope :=
  match dispatchBody req fetchRes with
  | .ok env => env
  | .error e => mkEnvelope ("Error: " ++ thrownText e) true

/-! ## Claims -/

/-- Claim C1: for every one of the four operations, if the provider's HTTP
response is not successful (`ok = false`), the adapter returns — without
throwing past its boundary (`Except.ok`) — an error envelope with
`isError = true` whose text embeds the provider's status text. -/
theorem claim_C1_http_failure_error_envelope (key value : String) (ttl : Option Nat)
    (pfx : Option String) (limit : Option Nat) (resp : Response)
    (hok : resp.ok = false) :
    handleGet key (.ok resp) =
        .ok (mkEnvelope ("Failed to get value: " ++ resp.statusText) true) ∧
    handlePut key value ttl (.ok resp) =
        .ok (mkEnvelope ("Failed to put value: " ++ resp.statusText) true) ∧
    handleDelete key (.ok resp) =
        .ok (mkEnvelope ("Failed to delete key: " ++ resp.statusText) true) ∧
    handleList pfx limit (.ok resp) =
        .ok (mkEnvelope ("Failed to list keys: " ++ resp.statusText) true) := by
  refine ⟨?_, ?_, ?_, ?_⟩ <;>
    simp [handleGet, handlePut, handleDelete, handleList, hok]

/-- Witness for C1 at a concrete 404-style response. -/
theorem claim_C1_witness :
    handleGet "k" (.ok ⟨false, "Not Found", "", .error (.value "no body")⟩) =
        .ok (mkEnvelope "Failed to get value: Not Found" true) ∧
    handlePut "k" "v" none (.ok ⟨false, "Not Found", "", .error (.value "no body")⟩) =
        .ok (mkEnvelope "Failed to put value: Not Found" true) ∧
    handleDelete "k" (.ok ⟨false, "Not Found", "", .error (.value "no body")⟩) =
        .ok (mkEnvelope "Failed to delete key: Not Found" true) ∧
    handleList none none (.ok ⟨false, "Not Found", "", .error (.value "no body")⟩) =
        .ok (mkEnvelope "Failed to list keys: Not Found" true) := by
  simpa using claim_C1_http_failure_error_envelope "k" "v" none none none
    ⟨false, "Not Found", "", .error (.value "no body")⟩ rfl

/-- Claim C2: any value thrown during dispatch (argument extraction or
adapter logic) is caught at the dispatcher boundary and converted into an
error envelope with `isError = true` whose text is `Error: ` followed by
the exception's message (when it is an `Error`) or its string form
(otherwise); `dispatch` is total, so nothing propagates out of the
handler. -/
theorem claim_C2_dispatcher_catches_thrown (req : ToolCallParams)
    (fetchRes : FetchOutcome) (e : JsThrown)
    (h : dispatchBody req fetchRes = .error e) :
    dispatch req fetchRes = mkEnvelope ("Error: " ++ thrownText e) true := by
  simp [dispatch, h]

/-- Witness for C2: destructuring an absent `arguments` object throws, and
the dispatcher surfaces the `TypeError` message in an error envelope. -/
theorem claim_C2_witness :
    dispatch ⟨"kv_get", none⟩ (.error (.value "network down")) =
      mkEnvelope "Error: Cannot destructure property of undefined" true := by
  simpa using claim_C2_dispatcher_catches_thrown ⟨"kv_get", none⟩
    (.error (.value "network down"))
    (.error "Cannot destructure property of undefined") rfl

/-- Claim C3 (defect): `kv_put` with `expirationTtl` supplied does NOT pass
the expiration as a query parameter on the outbound PUT request.  The value
is carried in a nonstandard `query` field of the fetch options, which the
transport does not consume: the request on the wire is identical to one
without `expirationTtl`, and the URL contains no query component at all. -/
theorem claim_C3_expiration_ttl_not_transmitted :
    (handlePut_fetchOptions ⟨some "acct", some "tok", some "ns"⟩ "v" (some 60)).query =
      some [("expiration_ttl", 60)] ∧
    sendFetch (values_url ⟨some "acct", some "tok", some "ns"⟩ "k")
        (handlePut_fetchOptions ⟨some "acct", some "tok", some "ns"⟩ "v" (some 60)) =
      sendFetch (values_url ⟨some "acct", some "tok", some "ns"⟩ "k")
        (handlePut_fetchOptions ⟨some "acct", some "tok", some "ns"⟩ "v" none) ∧
    values_url ⟨some "acct", some "tok", some "ns"⟩ "k" =
      "https://api.cloudflare.com/client/v4/accounts/acct/storage/kv/namespaces/ns/values/k" :=
  ⟨rfl, rfl, rfl⟩

/-- Claim C4: for `kv_list`, even on an HTTP-successful response, a parsed
body with `success = false` yields an error envelope with `isError = true`
embedding the provider's error messages joined by `", "`. -/
theorem claim_C4_list_provider_failure_envelope (pfx : Option String)
    (limit : Option Nat) (resp : Response) (body : CloudflareListResponse)
    (hok : resp.ok = true) (hjson : resp.jsonBody = .ok body)
    (hsucc : body.success = false) :
    handleList pfx limit (.ok resp) =
      .ok (mkEnvelope ("Failed to list keys: " ++ String.intercalate ", " body.errors)
        true) := by
  simp [handleList, hok, hjson, hsucc]

/-- Witness for C4: `{ success: false, errors: ["bad namespace"] }` yields
an error envelope whose text contains "bad namespace". -/
theorem claim_C4_witness :
    handleList none none
        (.ok ⟨true, "OK", "", .ok ⟨[], false, ["bad namespace"], []⟩⟩) =
      .ok (mkEnvelope "Failed to list keys: bad namespace" true) := by
  simpa using claim_C4_list_provider_failure_envelope none none
    ⟨true, "OK", "", .ok ⟨[], false, ["bad namespace"], []⟩⟩
    ⟨[], false, ["bad namespace"], []⟩ rfl rfl rfl

/-- Claim C5: for `kv_list` with a 2xx response whose body has
`success = true`, the envelope has `isError = false` and its text is the
two-space pretty-printed JSON array of the entries' `name` fields in
provider order; moreover the output depends only on those names, so the
entries' `expiration` and `metadata` fields never appear (any entry list
with the same names produces the identical envelope). -/
theorem claim_C5_list_success_names_only (pfx : Option String)
    (limit : Option Nat) (resp : Response) (body : CloudflareListResponse)
    (hok : resp.ok = true) (hjson : resp.jsonBody = .ok body)
    (hsucc : body.success = true) :
    handleList pfx limit (.ok resp) =
      .ok (mkEnvelope (jsonStringifyPretty2 (body.result.map KVKeyRecord.name)) false) ∧
    (∀ es : List KVKeyRecord, es.map KVKeyRecord.name = body.result.map KVKeyRecord.name →
      handleList pfx limit
          (.ok { resp with jsonBody := .ok { body with result := es } }) =
        handleList pfx limit (.ok resp)) := by
  constructor
  · simp [handleList, hok, hjson, hsucc]
  · intro es hes
    simp [handleList, hok, hjson, hsucc, hes]

/-- Witness for C5: `{ success: true, result: [{name:"a"},{name:"b", ...}] }`
yields the pretty-printed `["a","b"]`, with an entry's expiration and
metadata discarded. -/
theorem claim_C5_witness :
    handleList none none (.ok ⟨true, "OK", "",
        .ok ⟨[⟨"a", none, none⟩, ⟨"b", some 99, some "meta"⟩], true, [], []⟩⟩) =
      .ok (mkEnvelope "[\n  \"a\",\n  \"b\"\n]" false) := by
  simpa using (claim_C5_list_success_names_only none none
    ⟨true, "OK", "", .ok ⟨[⟨"a", none, none⟩, ⟨"b", some 99, some "meta"⟩], true, [], []⟩⟩
    ⟨[⟨"a", none, none⟩, ⟨"b", some 99, some "meta"⟩], true, [], []⟩ rfl rfl rfl).1

/-- Claim C6: for `kv_list`, a `prefix` entry reaches the query parameters
only when the `prefix` argument was supplied, and likewise for `limit`
(so absent arguments are omitted entirely, never sent as empty), and a
call with no arguments produces an empty parameter list serializing to the
empty query string. -/
theorem claim_C6_list_params_only_when_present (pfx : Option String)
    (limit : Option Nat) :
    (∀ v, ("prefix", v) ∈ handleList_params pfx limit → ∃ s, pfx = some s ∧ v = s) ∧
    (∀ v, ("limit", v) ∈ handleList_params pfx limit → ∃ n, limit = some n ∧ v = toString n) ∧
    handleList_params none none = [] ∧
    urlSearchParamsToString (handleList_params none none) = "" := by
  refine ⟨?_, ?_, rfl, rfl⟩
  · intro v hv
    cases pfx with
    | none => simp [handleList_params, jsTruthyStr] at hv
    | some s =>
      refine ⟨s, rfl, ?_⟩
      simp [handleList_params, jsTruthyStr] at hv
      split_ifs at hv <;> simp_all [Prod.ext_iff]
  · intro v hv
    cases limit with
    | none => simp [handleList_params, jsTruthyNat] at hv
    | some n =>
      refine ⟨n, rfl, ?_⟩
      simp [handleList_params, jsTruthyNat] at hv
      split_ifs at hv <;> simp_all [Prod.ext_iff]

/-- Witness for C6 at the concrete call `kv_list(prefix="a", limit=10)`:
the appended `prefix` entry indeed comes from a supplied argument. -/
theorem claim_C6_witness :
    ∃ s, (some "a" : Option String) = some s ∧ "a" = s :=
  (claim_C6_list_params_only_when_present (some "a") (some 10)).1 "a" (by decide)

/-- Claim C7: for every `kv_put` (resp. `kv_delete`) call with key `k`
whose HTTP response is 2xx, the envelope has `isError = false` and text
exactly `Successfully stored value for key: k` (resp.
`Successfully deleted key: k`). -/
theorem claim_C7_put_delete_success_text (key value : String) (ttl : Option Nat)
    (resp : Response) (hok : resp.ok = true) :
    handlePut key value ttl (.ok resp) =
      .ok (mkEnvelope ("Successfully stored value for key: " ++ key) false) ∧
    handleDelete key (.ok resp) =
      .ok (mkEnvelope ("Successfully deleted key: " ++ key) false) := by
  constructor <;> simp [handlePut, handleDelete, hok]

/-- Witness for C7 at key "k" and a concrete 2xx response. -/
theorem claim_C7_witness :
    handlePut "k" "v" none (.ok ⟨true, "OK", "", .error (.value "no body")⟩) =
      .ok (mkEnvelope "Successfully stored value for key: k" false) ∧
    handleDelete "k" (.ok ⟨true, "OK", "", .error (.value "no body")⟩) =
      .ok (mkEnvelope "Successfully deleted key: k" false) := by
  simpa using claim_C7_put_delete_success_text "k" "v" none
    ⟨true, "OK", "", .error (.value "no body")⟩ rfl

/-- Claim C8: an invocation whose name is none of the four registered tool
names returns an error envelope with `isError = true` and text exactly
`Unknown tool: <name>`; `dispatch` is total, so nothing crashes. -/
theorem claim_C8_unknown_tool_envelope (req : ToolCallParams)
    (fetchRes : FetchOutcome)
    (h1 : req.name ≠ "kv_get") (h2 : req.name ≠ "kv_put")
    (h3 : req.name ≠ "kv_delete") (h4 : req.name ≠ "kv_list") :
    dispatch req fetchRes = mkEnvelope ("Unknown tool: " ++ req.name) true := by
  obtain ⟨name, args⟩ := req
  have hname : dispatchBody ⟨name, args⟩ fetchRes =
      .ok (mkEnvelope ("Unknown tool: " ++ name) true) := by
    unfold dispatchBody
    split <;> simp_all
  simp [dispatch, hname]

/-- Witness for C8 at the unregistered name "foo". -/
theorem claim_C8_witness :
    dispatch ⟨"foo", none⟩ (.error (.value "ignored")) =
      mkEnvelope "Unknown tool: foo" true := by
  simpa using claim_C8_unknown_tool_envelope ⟨"foo", none⟩
    (.error (.value "ignored")) (by decide) (by decide) (by decide) (by decide)

/-- Claim C9: the discovery request returns the fixed, ordered registry of
exactly four tools `kv_get, kv_put, kv_delete, kv_list`, whose
`inputSchema.required` lists are `["key"]`, `["key","value"]`, `["key"]`
and absent, respectively. -/
theorem claim_C9_tool_registry :
    KV_TOOLS.length = 4 ∧
    KV_TOOLS.map Tool.name = ["kv_get", "kv_put", "kv_delete", "kv_list"] ∧
    listToolsHandler.tools = KV_TOOLS ∧
    KV_GET_TOOL.inputSchema.required = some ["key"] ∧
    KV_PUT_TOOL.inputSchema.required = some ["key", "value"] ∧
    KV_DELETE_TOOL.inputSchema.required = some ["key"] ∧
    KV_LIST_TOOL.inputSchema.required = none :=
  ⟨rfl, rfl, rfl, rfl, rfl, rfl, rfl⟩

/-- Claim C10: a supplied-but-falsy `kv_list` parameter is omitted from the
query exactly as if it were absent: `limit = 0` adds no `limit` entry and
`prefix = ""` adds no `prefix` entry, because inclusion is decided by
truthiness; with both falsy the query string is empty. -/
theorem claim_C10_falsy_params_omitted :
    (∀ pfx : Option String, handleList_params pfx (some 0) = handleList_params pfx none) ∧
    (∀ limit : Option Nat, handleList_params (some "") limit = handleList_params none limit) ∧
    handleList_params (some "") (some 0) = [] ∧
    urlSearchParamsToString (handleList_params (some "") (some 0)) = "" := by
  refine ⟨?_, ?_, rfl, rfl⟩
  · intro pfx; simp [handleList_params, jsTruthyNat]
  · intro limit; simp [handleList_params, jsTruthyStr]

end CloudflareKV
